import Mathlib

/-!
Verification development for the `chatgpt-mcp-server` repository: a JSON-RPC 2.0
façade ("MCP server") exposing utility tools (echo, get_current_time, calculate,
generate_uuid, text_stats) and Supabase-backed memory tools (memory_save,
memory_search, memory_forget, memory_list, memory_update).

Shallow embedding conventions:
* JavaScript numbers are modelled as rationals (`ℚ`); JSON values as the
  inductive `Json` below.
* Strings produced by `JSON.stringify(v)` are modelled structurally as
  `JsonText.enc v` (so we do not commit to JavaScript number formatting);
  literal / concatenated strings are `JsonText.raw s`.
* `JSON.parse` is a platform primitive (not part of the repository); the HTTP
  handler is therefore parameterised over a parse function
  `String → Option Json`.
* The external Supabase store, the clock and `Math.random()` are external
  collaborators; a handler invocation sees their replies through the `Env`
  record (one oracle reply per operation kind).
* Lean `String`s play the role of JavaScript strings viewed as sequences of
  code units.

Sources embedded: `src/functions/mcp.ts` (primary handler variant, the one
that short-circuits notifications and catches `InvalidParamsError`),
`src/tools/index.ts` (utility tools and router), `src/tools/memory.ts`,
`src/lib/supabase.ts`, `src/types/mcp.ts`, `src/types/memory.ts`.
-/

/-- JSON values; numbers are rationals (JavaScript doubles abstracted). -/
inductive Json where
  | null
  | bool (b : Bool)
  | num (q : ℚ)
  | str (s : String)
  | arr (elems : List Json)
  | obj (fields : List (String × Json))

/-- Field lookup on a JSON object's field list (first occurrence wins;
objects produced by `JSON.parse` have unique keys). -/
def jGet (fields : List (String × Json)) (k : String) : Option Json :=
  (fields.find? (fun kv => kv.1 == k)).map (·.2)

/-- JavaScript truthiness of a JSON value (`undefined` is handled separately
as `Option.none` wherever it can occur). -/
def jsTruthy : Json → Bool
  | .null => false
  | .bool b => b
  | .num q => !(q == 0)
  | .str s => !(s == "")
  | .arr _ => true
  | .obj _ => true

/-- A JavaScript string that is either a literal/concatenated string or the
result of `JSON.stringify` applied to a value. -/
inductive JsonText where
  | raw (s : String)
  | enc (j : Json)

/-- `McpContent` from `src/types/mcp.ts`: `{type, text?, data?, mimeType?}`. -/
structure McpContent where
  type : String
  text : Option JsonText
  data : Option String
  mimeType : Option String

/-- The `{ type: 'text', text: t }` content object every handler builds. -/
def mkText (t : JsonText) : McpContent :=
  { type := "text", text := some t, data := none, mimeType := none }

/-- `McpToolResult` from `src/types/mcp.ts`: `{content, isError?}`;
`isError := none` models the field being absent. -/
structure McpToolResult where
  content : List McpContent
  isError : Option Bool

/-- `McpTool` from `src/types/mcp.ts`: a tool definition
`{name, description, inputSchema}`; the JSON-schema-like object is embedded
as a `Json` value. -/
structure McpTool where
  name : String
  description : String
  inputSchema : Json

/-- A JSON-RPC id value that is present: string or number. -/
inductive RpcId where
  | str (s : String)
  | num (n : ℚ)

/-- The `id` field of a parsed request:
absent, null, or a present string/number id. -/
inductive IdField where
  | absent
  | null
  | idStr (s : String)
  | idNum (n : ℚ)

/-- The id value passed to the response builders
(`string | number | null`; `none` models `null`). -/
def idOut : IdField → Option RpcId
  | .absent => none
  | .null => none
  | .idStr s => some (.str s)
  | .idNum n => some (.num n)

/-- A parsed JSON-RPC request (`JsonRpcRequestSchema` output); the `jsonrpc`
field is the literal `"2.0"` by construction and is not carried. -/
structure JsonRpcRequest where
  id : IdField
  method : String
  params : Option (List (String × Json))

/-- `JsonRpcError` from `src/types/mcp.ts`: `{code, message, data?}`. -/
structure JsonRpcError where
  code : Int
  message : String
  data : Option Json

/-- `serverInfo` constant shape. -/
structure McpServerInfo where
  name : String
  version : String

/-- The `tools` capability object. -/
structure McpToolsCap where
  listChanged : Bool

/-- The capabilities object actually produced by `handleInitialize`
(the optional `resources`/`prompts` members are never set). -/
structure McpCapabilities where
  tools : McpToolsCap

/-- `McpInitializeResult` from `src/types/mcp.ts`. -/
structure McpInitializeResult where
  protocolVersion : String
  capabilities : McpCapabilities
  serverInfo : McpServerInfo

/-- The `result` payloads the server actually produces (the TypeScript type
is `unknown`; these four shapes are the only values ever constructed). -/
inductive ResultVal where
  | initResult (r : McpInitializeResult)
  | toolsList (tools : List McpTool)
  | toolCall (r : McpToolResult)
  | emptyObj

/-- `JsonRpcResponse` from `src/types/mcp.ts`: `{jsonrpc:"2.0", id, result?,
error?}`; the constant `jsonrpc` field is not carried. -/
structure JsonRpcResponse where
  id : Option RpcId
  result : Option ResultVal
  error : Option JsonRpcError

/-- `createResponse` from `src/functions/mcp.ts`. -/
def createResponse (id : Option RpcId) (result : ResultVal) : JsonRpcResponse :=
  { id := id, result := some result, error := none }

/-- `createErrorResponse` from `src/functions/mcp.ts`. -/
def createErrorResponse (id : Option RpcId) (code : Int) (message : String)
    (data : Option Json) : JsonRpcResponse :=
  { id := id, result := none, error := some { code := code, message := message, data := data } }

/-- `ErrorCodes.PARSE_ERROR`. -/
def parseErrorCode : Int := -32700
/-- `ErrorCodes.INVALID_REQUEST`. -/
def invalidRequestCode : Int := -32600
/-- `ErrorCodes.METHOD_NOT_FOUND`. -/
def methodNotFoundCode : Int := -32601
/-- `ErrorCodes.INVALID_PARAMS`. -/
def invalidParamsCode : Int := -32602
/-- `ErrorCodes.INTERNAL_ERROR`. -/
def internalErrorCode : Int := -32603

/-! ## Utility tools (`src/tools/index.ts`) -/

/-- `EchoInputSchema`: `z.object({ text: z.string().min(1).max(10000) })`.
Issue texts abstract the zod messages; only their presence matters. -/
def echoParse (j : Json) : Except String String :=
  match j with
  | .obj fs =>
    match jGet fs "text" with
    | some (.str s) =>
      if s.length < 1 then .error "String must contain at least 1 character"
      else if 10000 < s.length then .error "String must contain at most 10000 characters"
      else .ok s
    | some _ => .error "Expected string, received other at text"
    | none => .error "Required at text"
  | _ => .error "Expected object"

/-- `echo` from `src/tools/index.ts`. -/
def echo (args : Json) : McpToolResult :=
  match echoParse args with
  | .error msg =>
    { content := [mkText (.raw ("Invalid input: " ++ msg))], isError := some true }
  | .ok text =>
    { content := [mkText (.raw text)], isError := none }

/-- The four `calculate` operations (`z.enum`). -/
inductive CalcOp where
  | add
  | subtract
  | multiply
  | divide

/-- `CalculateInputSchema`:
`z.object({ operation: z.enum([...]), a: z.number(), b: z.number() })`. -/
def calcParse (j : Json) : Except String (CalcOp × ℚ × ℚ) :=
  match j with
  | .obj fs =>
    let opE : Except String CalcOp :=
      match jGet fs "operation" with
      | some (.str "add") => .ok .add
      | some (.str "subtract") => .ok .subtract
      | some (.str "multiply") => .ok .multiply
      | some (.str "divide") => .ok .divide
      | some _ => .error "Invalid enum value at operation"
      | none => .error "Required at operation"
    match opE with
    | .error e => .error e
    | .ok op =>
      match jGet fs "a", jGet fs "b" with
      | some (.num a), some (.num b) => .ok (op, a, b)
      | some (.num _), _ => .error "Expected number, received other at b"
      | _, _ => .error "Expected number, received other at a"
  | _ => .error "Expected object"

/-- `calculate` from `src/tools/index.ts`; division is exact rational
division (JavaScript double division abstracted). -/
def calculate (args : Json) : McpToolResult :=
  match calcParse args with
  | .error msg =>
    { content := [mkText (.raw ("Invalid input: " ++ msg))], isError := some true }
  | .ok (operation, a, b) =>
    match operation with
    | .add =>
      { content := [mkText (.enc (.obj [("operation", .str "add"), ("a", .num a),
          ("b", .num b), ("result", .num (a + b))]))], isError := none }
    | .subtract =>
      { content := [mkText (.enc (.obj [("operation", .str "subtract"), ("a", .num a),
          ("b", .num b), ("result", .num (a - b))]))], isError := none }
    | .multiply =>
      { content := [mkText (.enc (.obj [("operation", .str "multiply"), ("a", .num a),
          ("b", .num b), ("result", .num (a * b))]))], isError := none }
    | .divide =>
      if b == 0 then
        { content := [mkText (.raw "Error: Division by zero")], isError := some true }
      else
        { content := [mkText (.enc (.obj [("operation", .str "divide"), ("a", .num a),
            ("b", .num b), ("result", .num (a / b))]))], isError := none }

/-- `getCurrentTime` from `src/tools/index.ts`; the clock values are oracle
inputs (`new Date().toISOString()` and `Date.now()`). -/
def getCurrentTime (nowIso : String) (nowMs : Int) : McpToolResult :=
  { content := [mkText (.enc (.obj [("utc", .str nowIso), ("timestamp", .num nowMs)]))],
    isError := none }

/-- The UUID v4 template string from `generateUuid`. -/
def uuidTemplate : String := "xxxxxxxx-xxxx-4xxx-yxxx-xxxxxxxxxxxx"

/-- The `.replace(/[xy]/g, ...)` walk from `generateUuid`: `rs i` is the
`i`-th value of `(Math.random() * 16) | 0` (always `< 16`); an `x` becomes
`r.toString(16)`, a `y` becomes `((r & 0x3) | 0x8).toString(16)`, every other
template character is kept. -/
def replaceUuid (rs : Nat → Nat) : Nat → List Char → List Char
  | _, [] => []
  | i, c :: cs =>
    if c = 'x' then Nat.digitChar (rs i) :: replaceUuid rs (i + 1) cs
    else if c = 'y' then Nat.digitChar (((rs i).land 3).lor 8) :: replaceUuid rs (i + 1) cs
    else c :: replaceUuid rs i cs

/-- `generateUuid` from `src/tools/index.ts`, as a function of the stream of
`(Math.random() * 16) | 0` draws. -/
def generateUuid (rs : Nat → Nat) : McpToolResult :=
  let uuid := String.mk (replaceUuid rs 0 uuidTemplate.data)
  { content := [mkText (.enc (.obj [("uuid", .str uuid)]))], isError := none }

/-! ### text_stats and its counting machinery -/

/-- JavaScript `\s` membership (whitespace), abstracted as `Char.isWhitespace`. -/
def isWs (c : Char) : Bool := c.isWhitespace

/-- Sentence separator characters `[.!?]`. -/
def isSentSep (c : Char) : Bool := c = '.' || c = '!' || c = '?'

/-- `String.prototype.trim` on a character list: drop whitespace from both
ends. -/
def trimChars (l : List Char) : List Char :=
  ((l.dropWhile isWs).reverse.dropWhile isWs).reverse

/-- `String.prototype.split` against a single-character class: split at every
character satisfying `p`, keeping empty segments (a run of `k` separators
yields `k - 1` empty segments between its neighbours, exactly like splitting
on the single-character regex; the `+` quantifier in the source regexes only
suppresses empty segments, which the subsequent `filter` removes anyway). -/
def splitP (p : Char → Bool) : List Char → List (List Char)
  | [] => [[]]
  | c :: cs =>
    if p c then [] :: splitP p cs
    else
      match splitP p cs with
      | [] => [[c]]
      | s :: ss => (c :: s) :: ss

/-- `TextStatsInputSchema`: `z.object({ text: z.string().min(1).max(50000) })`. -/
def textStatsParse (j : Json) : Except String String :=
  match j with
  | .obj fs =>
    match jGet fs "text" with
    | some (.str s) =>
      if s.length < 1 then .error "String must contain at least 1 character"
      else if 50000 < s.length then .error "String must contain at most 50000 characters"
      else .ok s
    | some _ => .error "Expected string, received other at text"
    | none => .error "Required at text"
  | _ => .error "Expected object"

/-- `toFixed(2)` followed by `parseFloat`, on rationals: round to the nearest
hundredth, ties upward (the values rounded here are nonnegative). -/
def toFixed2 (x : ℚ) : ℚ := (⌊x * 100 + 1 / 2⌋ : ℚ) / 100

/-- The word list of `textStats`:
`text.trim().split(/\s+/).filter(w => w.length > 0)`. -/
def statsWords (t : String) : List (List Char) :=
  (splitP isWs (trimChars t.data)).filter (fun w => 0 < w.length)

/-- The sentence count of `textStats`:
`text.split(/[.!?]+/).filter(s => s.trim().length > 0).length`. -/
def statsSentences (t : String) : Nat :=
  ((splitP isSentSep t.data).filter (fun s => 0 < (trimChars s).length)).length

/-- The `averageWordLength` computation of `textStats`. -/
def statsAvgWordLength (t : String) : ℚ :=
  let words := statsWords t
  if 0 < words.length then
    toFixed2 (((words.map List.length).sum : ℚ) / (words.length : ℚ))
  else 0

/-- `textStats` from `src/tools/index.ts`. -/
def textStats (args : Json) : McpToolResult :=
  match textStatsParse args with
  | .error msg =>
    { content := [mkText (.raw ("Invalid input: " ++ msg))], isError := some true }
  | .ok t =>
    { content := [mkText (.enc (.obj [
        ("characters", .num (t.length : ℚ)),
        ("words", .num ((statsWords t).length : ℚ)),
        ("sentences", .num ((statsSentences t) : ℚ)),
        ("averageWordLength", .num (statsAvgWordLength t))]))],
      isError := none }

/-! ## Tool definitions (`toolDefinitions` of `src/tools/index.ts`) -/

/-- The five utility tool definitions, schemas embedded as JSON values. -/
def toolDefinitions : List McpTool := [
  { name := "echo",
    description := "Returns the input text back. Useful for testing connectivity.",
    inputSchema := .obj [
      ("type", .str "object"),
      ("properties", .obj [
        ("text", .obj [
          ("type", .str "string"),
          ("description", .str "The text to echo back"),
          ("minLength", .num 1),
          ("maxLength", .num 10000)])]),
      ("required", .arr [.str "text"])] },
  { name := "get_current_time",
    description := "Returns the current UTC timestamp in ISO 8601 format.",
    inputSchema := .obj [
      ("type", .str "object"),
      ("properties", .obj []),
      ("required", .arr [])] },
  { name := "calculate",
    description := "Performs basic arithmetic operations: add, subtract, multiply, divide.",
    inputSchema := .obj [
      ("type", .str "object"),
      ("properties", .obj [
        ("operation", .obj [
          ("type", .str "string"),
          ("enum", .arr [.str "add", .str "subtract", .str "multiply", .str "divide"]),
          ("description", .str "The arithmetic operation to perform")]),
        ("a", .obj [
          ("type", .str "number"),
          ("description", .str "First operand")]),
        ("b", .obj [
          ("type", .str "number"),
          ("description", .str "Second operand")])]),
      ("required", .arr [.str "operation", .str "a", .str "b"])] },
  { name := "generate_uuid",
    description := "Generates a random UUID v4.",
    inputSchema := .obj [
      ("type", .str "object"),
      ("properties", .obj []),
      ("required", .arr [])] },
  { name := "text_stats",
    description := "Analyzes text and returns statistics: character count, word count, sentence count, and average word length.",
    inputSchema := .obj [
      ("type", .str "object"),
      ("properties", .obj [
        ("text", .obj [
          ("type", .str "string"),
          ("description", .str "The text to analyze"),
          ("minLength", .num 1),
          ("maxLength", .num 50000)])]),
      ("required", .arr [.str "text"])] }]

/-! ## Memory system types (`src/types/memory.ts`) -/

/-- `MemoryType`: the five valid memory categories. -/
inductive MemoryType where
  | preference
  | profile
  | task
  | note
  | fact

/-- The source-level string of a `MemoryType`. -/
def memTypeName : MemoryType → String
  | .preference => "preference"
  | .profile => "profile"
  | .task => "task"
  | .note => "note"
  | .fact => "fact"

/-- `MemoryTypeSchema` parse of a JSON value. -/
def memTypeParse (j : Json) : Except String MemoryType :=
  match j with
  | .str "preference" => .ok .preference
  | .str "profile" => .ok .profile
  | .str "task" => .ok .task
  | .str "note" => .ok .note
  | .str "fact" => .ok .fact
  | _ => .error "Invalid enum value at type"

/-- `MemoryRecord`: a row of the `memories` table as returned by Supabase. -/
structure MemoryRecordRow where
  id : String
  user_id : String
  session_id : Option String
  type : MemoryType
  content : String
  tags : Option (List String)
  importance : Option ℚ
  created_at : String
  updated_at : String

/-- `toMemoryOutput` from `src/types/memory.ts`, with the camelCase output
object rendered as JSON. -/
def toMemoryOutput (r : MemoryRecordRow) : Json :=
  .obj [
    ("id", .str r.id),
    ("userId", .str r.user_id),
    ("sessionId", match r.session_id with | some s => .str s | none => .null),
    ("type", .str (memTypeName r.type)),
    ("content", .str r.content),
    ("tags", match r.tags with | some ts => .arr (ts.map .str) | none => .null),
    ("importance", match r.importance with | some q => .num q | none => .null),
    ("createdAt", .str r.created_at),
    ("updatedAt", .str r.updated_at)]

/-- Parsed `MemorySaveInputSchema` output (defaults already applied:
`type` defaults to note, `importance` to 0). -/
structure MemorySaveInput where
  userId : String
  content : String
  type : MemoryType
  tags : Option (List String)
  importance : ℚ
  sessionId : Option String

/-- Parsed `MemorySearchInputSchema` output (default `limit` 10 applied). -/
structure MemorySearchInput where
  userId : String
  query : String
  limit : ℚ
  type : Option MemoryType
  sessionId : Option String

/-- Parsed `MemoryForgetInputSchema` output (the refinement
`id || contentMatch` already holds). -/
structure MemoryForgetInput where
  userId : String
  id : Option String
  contentMatch : Option String

/-- Parsed `MemoryListInputSchema` output (defaults `limit` 20, `offset` 0
applied). -/
structure MemoryListInput where
  userId : String
  type : Option MemoryType
  limit : ℚ
  offset : ℚ

/-- Parsed `MemoryUpdateInputSchema` output. -/
structure MemoryUpdateInput where
  userId : String
  id : String
  content : Option String
  type : Option MemoryType
  tags : Option (List String)
  importance : Option ℚ

/-- `z.string().min(1, msg)` on an object field: present string, nonempty. -/
def reqString (fs : List (String × Json)) (k : String) (msg : String) :
    Except (List String) String :=
  match jGet fs k with
  | some (.str s) => if s.length < 1 then .error [msg] else .ok s
  | some _ => .error ["Expected string, received other at " ++ k]
  | none => .error ["Required at " ++ k]

/-- `z.string().optional()` on an object field. -/
def optString (fs : List (String × Json)) (k : String) :
    Except (List String) (Option String) :=
  match jGet fs k with
  | some (.str s) => .ok (some s)
  | some _ => .error ["Expected string, received other at " ++ k]
  | none => .ok none

/-- `z.array(z.string()).optional()` on an object field. -/
def optStringArray (fs : List (String × Json)) (k : String) :
    Except (List String) (Option (List String)) :=
  match jGet fs k with
  | none => .ok none
  | some (.arr es) =>
    let rec collect : List Json → Except (List String) (List String)
      | [] => .ok []
      | .str s :: rest => (collect rest).map (s :: ·)
      | _ :: _ => .error ["Expected string, received other at " ++ k]
    (collect es).map some
  | some _ => .error ["Expected array, received other at " ++ k]

/-- `z.number().int().min(lo).max(hi).optional()` on an object field. -/
def optIntBounded (fs : List (String × Json)) (k : String) (lo hi : ℚ) :
    Except (List String) (Option ℚ) :=
  match jGet fs k with
  | none => .ok none
  | some (.num q) =>
    if q.den ≠ 1 then .error ["Expected integer, received float at " ++ k]
    else if q < lo then .error ["Number must be greater than or equal to " ++ toString lo.num ++ " at " ++ k]
    else if hi < q then .error ["Number must be less than or equal to " ++ toString hi.num ++ " at " ++ k]
    else .ok (some q)
  | some _ => .error ["Expected number, received other at " ++ k]

/-- `z.. .optional()` on the memory type enum. -/
def optMemType (fs : List (String × Json)) : Except (List String) (Option MemoryType) :=
  match jGet fs "type" with
  | none => .ok none
  | some j =>
    match memTypeParse j with
    | .ok t => .ok (some t)
    | .error e => .error [e]

/-- Combine two issue-accumulating parses (zod reports all issues). -/
def accum {α β : Type} (a : Except (List String) α) (b : Except (List String) β) :
    Except (List String) (α × β) :=
  match a, b with
  | .ok x, .ok y => .ok (x, y)
  | .error e, .ok _ => .error e
  | .ok _, .error e => .error e
  | .error e, .error f => .error (e ++ f)

/-- `MemorySaveInputSchema.safeParse`. -/
def memorySaveParse (j : Json) : Except (List String) MemorySaveInput :=
  match j with
  | .obj fs =>
    let uid := reqString fs "userId" "userId is required"
    let cont :=
      match jGet fs "content" with
      | some (.str s) =>
        if s.length < 1 then .error ["content is required"]
        else if 50000 < s.length then .error ["content too long"]
        else .ok s
      | some _ => .error ["Expected string, received other at content"]
      | none => .error ["Required at content"]
    let ty :=
      match jGet fs "type" with
      | none => .ok MemoryType.note
      | some tj => match memTypeParse tj with
        | .ok t => .ok t
        | .error e => .error [e]
    let tg := optStringArray fs "tags"
    let imp := (optIntBounded fs "importance" (-10) 10).map (fun o => o.getD 0)
    let sid := optString fs "sessionId"
    match accum (accum (accum uid cont) (accum ty tg)) (accum imp sid) with
    | .error es => .error es
    | .ok (((u, c), (t, tgs)), (i, s)) =>
      .ok { userId := u, content := c, type := t, tags := tgs, importance := i, sessionId := s }
  | _ => .error ["Expected object, received other"]

/-- `MemorySearchInputSchema.safeParse`. -/
def memorySearchParse (j : Json) : Except (List String) MemorySearchInput :=
  match j with
  | .obj fs =>
    let uid := reqString fs "userId" "userId is required"
    let q :=
      match jGet fs "query" with
      | some (.str s) =>
        if s.length < 1 then .error ["query is required"]
        else if 1000 < s.length then .error ["query too long"]
        else .ok s
      | some _ => .error ["Expected string, received other at query"]
      | none => .error ["Required at query"]
    let lim := (optIntBounded fs "limit" 1 100).map (fun o => o.getD 10)
    let ty := optMemType fs
    let sid := optString fs "sessionId"
    match accum (accum uid q) (accum lim (accum ty sid)) with
    | .error es => .error es
    | .ok ((u, qq), (l, (t, s))) =>
      .ok { userId := u, query := qq, limit := l, type := t, sessionId := s }
  | _ => .error ["Expected object, received other"]

/-- `MemoryForgetInputSchema.safeParse`, including the `.refine` requiring
`id || contentMatch` (JavaScript truthiness: the empty string does not
satisfy the refinement). -/
def memoryForgetParse (j : Json) : Except (List String) MemoryForgetInput :=
  match j with
  | .obj fs =>
    let uid := reqString fs "userId" "userId is required"
    let idf := optString fs "id"
    let cm := optString fs "contentMatch"
    match accum uid (accum idf cm) with
    | .error es => .error es
    | .ok (u, (i, c)) =>
      let idTruthy := match i with | some s => !(s == "") | none => false
      let cmTruthy := match c with | some s => !(s == "") | none => false
      if idTruthy || cmTruthy then
        .ok { userId := u, id := i, contentMatch := c }
      else .error ["Either id or contentMatch must be provided"]
  | _ => .error ["Expected object, received other"]

/-- `MemoryListInputSchema.safeParse`. -/
def memoryListParse (j : Json) : Except (List String) MemoryListInput :=
  match j with
  | .obj fs =>
    let uid := reqString fs "userId" "userId is required"
    let ty := optMemType fs
    let lim := (optIntBounded fs "limit" 1 100).map (fun o => o.getD 20)
    let off :=
      match jGet fs "offset" with
      | none => .ok (0 : ℚ)
      | some (.num q) =>
        if q.den ≠ 1 then .error ["Expected integer, received float at offset"]
        else if q < 0 then .error ["Number must be greater than or equal to 0 at offset"]
        else .ok q
      | some _ => .error ["Expected number, received other at offset"]
    match accum (accum uid ty) (accum lim off) with
    | .error es => .error es
    | .ok ((u, t), (l, o)) =>
      .ok { userId := u, type := t, limit := l, offset := o }
  | _ => .error ["Expected object, received other"]

/-- `MemoryUpdateInputSchema.safeParse`. -/
def memoryUpdateParse (j : Json) : Except (List String) MemoryUpdateInput :=
  match j with
  | .obj fs =>
    let uid := reqString fs "userId" "userId is required"
    let idf := reqString fs "id" "id is required"
    let cont :=
      match jGet fs "content" with
      | none => .ok (none : Option String)
      | some (.str s) =>
        if s.length < 1 then .error ["String must contain at least 1 character at content"]
        else if 50000 < s.length then .error ["String must contain at most 50000 characters at content"]
        else .ok (some s)
      | some _ => .error ["Expected string, received other at content"]
    let ty := optMemType fs
    let tg := optStringArray fs "tags"
    let imp := optIntBounded fs "importance" (-10) 10
    match accum (accum (accum uid idf) (accum cont ty)) (accum tg imp) with
    | .error es => .error es
    | .ok (((u, i), (c, t)), (tgs, im)) =>
      .ok { userId := u, id := i, content := c, type := t, tags := tgs, importance := im }
  | _ => .error ["Expected object, received other"]

/-! ## Memory tool definitions (`memoryToolDefinitions` of `src/tools/memory.ts`) -/

/-- The five Supabase-backed memory tool definitions. -/
def memoryToolDefinitions : List McpTool := [
  { name := "memory_save",
    description := "Save a memory item (fact, preference, note, task, or profile info) for a user. Use this when the user explicitly asks to remember something or expresses stable preferences.",
    inputSchema := .obj [
      ("type", .str "object"),
      ("properties", .obj [
        ("userId", .obj [
          ("type", .str "string"),
          ("description", .str "Unique identifier for the user")]),
        ("content", .obj [
          ("type", .str "string"),
          ("description", .str "The memory content to save (concise summary, not raw conversation)"),
          ("maxLength", .num 50000)]),
        ("type", .obj [
          ("type", .str "string"),
          ("enum", .arr [.str "preference", .str "profile", .str "task", .str "note", .str "fact"]),
          ("description", .str "Category of memory. Defaults to \"note\".")]),
        ("tags", .obj [
          ("type", .str "array"),
          ("items", .obj [("type", .str "string")]),
          ("description", .str "Optional tags for categorization and search")]),
        ("importance", .obj [
          ("type", .str "integer"),
          ("description", .str "Importance level from -10 to 10. Defaults to 0."),
          ("minimum", .num (-10)),
          ("maximum", .num 10)]),
        ("sessionId", .obj [
          ("type", .str "string"),
          ("description", .str "Optional session identifier for grouping related memories")])]),
      ("required", .arr [.str "userId", .str "content"])] },
  { name := "memory_search",
    description := "Search for relevant memories for a user. Call this before answering to retrieve context from previous interactions.",
    inputSchema := .obj [
      ("type", .str "object"),
      ("properties", .obj [
        ("userId", .obj [
          ("type", .str "string"),
          ("description", .str "Unique identifier for the user")]),
        ("query", .obj [
          ("type", .str "string"),
          ("description", .str "Search query to find relevant memories"),
          ("maxLength", .num 1000)]),
        ("limit", .obj [
          ("type", .str "integer"),
          ("description", .str "Maximum number of results to return. Defaults to 10."),
          ("minimum", .num 1),
          ("maximum", .num 100)]),
        ("type", .obj [
          ("type", .str "string"),
          ("enum", .arr [.str "preference", .str "profile", .str "task", .str "note", .str "fact"]),
          ("description", .str "Filter by memory type")]),
        ("sessionId", .obj [
          ("type", .str "string"),
          ("description", .str "Filter by session identifier")])]),
      ("required", .arr [.str "userId", .str "query"])] },
  { name := "memory_forget",
    description := "Delete one or more memories for a user. Use when the user asks to forget something.",
    inputSchema := .obj [
      ("type", .str "object"),
      ("properties", .obj [
        ("userId", .obj [
          ("type", .str "string"),
          ("description", .str "Unique identifier for the user")]),
        ("id", .obj [
          ("type", .str "string"),
          ("description", .str "Specific memory ID to delete")]),
        ("contentMatch", .obj [
          ("type", .str "string"),
          ("description", .str "Delete memories where content contains this text (case-insensitive)")])]),
      ("required", .arr [.str "userId"])] },
  { name := "memory_list",
    description := "List all memories for a user with optional filtering. Useful for inspection and debugging.",
    inputSchema := .obj [
      ("type", .str "object"),
      ("properties", .obj [
        ("userId", .obj [
          ("type", .str "string"),
          ("description", .str "Unique identifier for the user")]),
        ("type", .obj [
          ("type", .str "string"),
          ("enum", .arr [.str "preference", .str "profile", .str "task", .str "note", .str "fact"]),
          ("description", .str "Filter by memory type")]),
        ("limit", .obj [
          ("type", .str "integer"),
          ("description", .str "Maximum number of results. Defaults to 20."),
          ("minimum", .num 1),
          ("maximum", .num 100)]),
        ("offset", .obj [
          ("type", .str "integer"),
          ("description", .str "Number of results to skip for pagination. Defaults to 0."),
          ("minimum", .num 0)])]),
      ("required", .arr [.str "userId"])] },
  { name := "memory_update",
    description := "Update an existing memory record. Only provided fields will be updated.",
    inputSchema := .obj [
      ("type", .str "object"),
      ("properties", .obj [
        ("userId", .obj [
          ("type", .str "string"),
          ("description", .str "Unique identifier for the user")]),
        ("id", .obj [
          ("type", .str "string"),
          ("description", .str "ID of the memory to update")]),
        ("content", .obj [
          ("type", .str "string"),
          ("description", .str "New content for the memory"),
          ("maxLength", .num 50000)]),
        ("type", .obj [
          ("type", .str "string"),
          ("enum", .arr [.str "preference", .str "profile", .str "task", .str "note", .str "fact"]),
          ("description", .str "New type for the memory")]),
        ("tags", .obj [
          ("type", .str "array"),
          ("items", .obj [("type", .str "string")]),
          ("description", .str "New tags for the memory")]),
        ("importance", .obj [
          ("type", .str "integer"),
          ("description", .str "New importance level from -10 to 10"),
          ("minimum", .num (-10)),
          ("maximum", .num 10)])]),
      ("required", .arr [.str "userId", .str "id"])] }]

/-! ## Memory tool handlers (`src/tools/memory.ts`) -/

/-- The oracle replies of the external collaborators seen by one handler
invocation: the clock, the `(Math.random() * 16) | 0` stream, and the
Supabase store (`cfg` models `getSupabaseClient` — `.error msg` is a thrown
`SupabaseConfigError`; the remaining fields are the backend's reply to the
single round trip the invoked handler performs, `updateRes` receiving the
update payload that is sent). -/
structure Env where
  now : String
  nowMs : Int
  rand : Nat → Nat
  cfg : Except String Unit
  insertRes : List (String × Json) → Except String String
  selectRes : Except String (List MemoryRecordRow)
  deleteRes : Except String (List String)
  listRes : Except String ((List MemoryRecordRow) × Nat)
  updateRes : List (String × Json) → Except String (Option MemoryRecordRow)

/-- `createErrorResult` from `src/tools/memory.ts`. -/
def createErrorResult (message : String) : McpToolResult :=
  { content := [mkText (.enc (.obj [("error", .str message)]))], isError := some true }

/-- Outcome of invoking a tool handler through the router: a returned Tool
Result, a thrown `InvalidParamsError`, or any other thrown error (no embedded
handler produces the latter; it models unexpected runtime failures and keeps
the dispatcher's catch structure). -/
inductive ExecOutcome where
  | ok (r : McpToolResult)
  | thrownInvalid (msg : String)
  | thrownOther (msg : String)

/-- `parsed.error.issues.map(i => i.message).join(', ')`. -/
def joinMsgs (issues : List String) : String := String.intercalate ", " issues

/-- The row `memorySave` inserts into the `memories` table
(`tags: tags || []`, `importance: importance ?? 0`,
`session_id: sessionId || null`). -/
def memorySaveRow (inp : MemorySaveInput) : List (String × Json) :=
  [("user_id", .str inp.userId),
   ("content", .str inp.content),
   ("type", .str (memTypeName inp.type)),
   ("tags", .arr ((inp.tags.getD []).map .str)),
   ("importance", .num inp.importance),
   ("session_id", match inp.sessionId with
     | some s => if s == "" then .null else .str s
     | none => .null)]

/-- `memorySave` from `src/tools/memory.ts`. -/
def memorySave (env : Env) (args : Json) : ExecOutcome :=
  match memorySaveParse args with
  | .error issues => .thrownInvalid (joinMsgs issues)
  | .ok inp =>
    match env.cfg with
    | .error msg => .ok (createErrorResult msg)
    | .ok _ =>
      match env.insertRes (memorySaveRow inp) with
      | .error m => .ok (createErrorResult ("Failed to save memory: " ++ m))
      | .ok newId =>
        .ok { content := [mkText (.enc (.obj [("id", .str newId), ("saved", .bool true)]))],
              isError := none }

/-- `memorySearch` from `src/tools/memory.ts`. -/
def memorySearch (env : Env) (args : Json) : ExecOutcome :=
  match memorySearchParse args with
  | .error issues => .thrownInvalid (joinMsgs issues)
  | .ok _ =>
    match env.cfg with
    | .error msg => .ok (createErrorResult msg)
    | .ok _ =>
      match env.selectRes with
      | .error m => .ok (createErrorResult ("Failed to search memories: " ++ m))
      | .ok rows =>
        .ok { content := [mkText (.enc (.obj [("memories", .arr (rows.map toMemoryOutput))]))],
              isError := none }

/-- `memoryForget` from `src/tools/memory.ts`
(`deletedCount: data?.length || 0`). -/
def memoryForget (env : Env) (args : Json) : ExecOutcome :=
  match memoryForgetParse args with
  | .error issues => .thrownInvalid (joinMsgs issues)
  | .ok _ =>
    match env.cfg with
    | .error msg => .ok (createErrorResult msg)
    | .ok _ =>
      match env.deleteRes with
      | .error m => .ok (createErrorResult ("Failed to delete memories: " ++ m))
      | .ok ids =>
        .ok { content := [mkText (.enc (.obj [("deletedCount", .num (ids.length : ℚ))]))],
              isError := none }

/-- `memoryList` from `src/tools/memory.ts` (`total: count || 0`). -/
def memoryList (env : Env) (args : Json) : ExecOutcome :=
  match memoryListParse args with
  | .error issues => .thrownInvalid (joinMsgs issues)
  | .ok _ =>
    match env.cfg with
    | .error msg => .ok (createErrorResult msg)
    | .ok _ =>
      match env.listRes with
      | .error m => .ok (createErrorResult ("Failed to list memories: " ++ m))
      | .ok (rows, total) =>
        .ok { content := [mkText (.enc (.obj [("memories", .arr (rows.map toMemoryOutput)),
                ("total", .num (total : ℚ))]))],
              isError := none }

/-- The `updateData` object `memoryUpdate` sends to the store (lines
522–529 of `src/lib/supabase.ts` + `src/tools/memory.ts`): always a fresh
`updated_at`, then exactly the supplied optional fields. -/
def memoryUpdatePayload (now : String) (inp : MemoryUpdateInput) : List (String × Json) :=
  [("updated_at", .str now)]
  ++ (match inp.content with | some c => [("content", .str c)] | none => [])
  ++ (match inp.type with | some t => [("type", .str (memTypeName t))] | none => [])
  ++ (match inp.tags with | some ts => [("tags", .arr (ts.map .str))] | none => [])
  ++ (match inp.importance with | some q => [("importance", .num q)] | none => [])

/-- `memoryUpdate` from `src/tools/memory.ts`. -/
def memoryUpdate (env : Env) (args : Json) : ExecOutcome :=
  match memoryUpdateParse args with
  | .error issues => .thrownInvalid (joinMsgs issues)
  | .ok inp =>
    match env.cfg with
    | .error msg => .ok (createErrorResult msg)
    | .ok _ =>
      match env.updateRes (memoryUpdatePayload env.now inp) with
      | .error m => .ok (createErrorResult ("Failed to update memory: " ++ m))
      | .ok none => .ok (createErrorResult "Memory not found or not owned by user")
      | .ok (some row) =>
        .ok { content := [mkText (.enc (.obj [("memory", toMemoryOutput row),
                ("updated", .bool true)]))],
              isError := none }

/-- `executeMemoryTool` from `src/tools/memory.ts`: routes the five memory
tools, `none` for any other name. -/
def executeMemoryTool (env : Env) (name : String) (args : Json) : Option ExecOutcome :=
  match name with
  | "memory_save" => some (memorySave env args)
  | "memory_search" => some (memorySearch env args)
  | "memory_forget" => some (memoryForget env args)
  | "memory_list" => some (memoryList env args)
  | "memory_update" => some (memoryUpdate env args)
  | _ => none

/-! ## Tool registry and router (`src/tools/index.ts`) -/

/-- Modelled from the spec: the merged tool registry of the memory-enabled
build (`src/tools/index.ts` importing `memoryToolDefinitions`) is not under
`src/` — only the utility-only `toolDefinitions` and `memoryToolDefinitions`
themselves are. Per §4.1 of the spec and the README's tool table, the
registry's definition list is the utility tools followed by the memory
tools. -/
def allToolDefinitions : List McpTool := toolDefinitions ++ memoryToolDefinitions

/-- The names in the registry's definition list. -/
def allToolNames : List String := allToolDefinitions.map (·.name)

/-- `executeTool`: the utility routing is `src/tools/index.ts` verbatim; the
memory routing is modelled from the spec (§4.1: the registry "looks up the
handler and invokes it, or returns a sentinel unknown-tool error result"),
delegating to `executeMemoryTool` first as the memory-enabled router does,
with a thrown `InvalidParamsError` propagating to the dispatcher. -/
def executeTool (env : Env) (name : String) (args : Json) : ExecOutcome :=
  match executeMemoryTool env name args with
  | some out => out
  | none =>
    match name with
    | "echo" => .ok (echo args)
    | "get_current_time" => .ok (getCurrentTime env.now env.nowMs)
    | "calculate" => .ok (calculate args)
    | "generate_uuid" => .ok (generateUuid env.rand)
    | "text_stats" => .ok (textStats args)
    | other => .ok { content := [mkText (.raw ("Unknown tool: " ++ other))], isError := some true }

/-! ## Method dispatcher (`src/functions/mcp.ts`, primary variant) -/

/-- `handleInitialize` from the source. -/
def handleInitReq (id : Option RpcId) : JsonRpcResponse :=
  createResponse id (.initResult {
    protocolVersion := "2024-11-05",
    capabilities := { tools := { listChanged := false } },
    serverInfo := { name := "chatgpt-mcp-server", version := "1.0.0" } })

/-- `handleToolsList`. -/
def handleToolsList (id : Option RpcId) : JsonRpcResponse :=
  createResponse id (.toolsList allToolDefinitions)

/-- `(params.arguments as Record<string, unknown>) || {}`: a missing or
falsy `arguments` member becomes the empty object. -/
def argsOfParams (ps : List (String × Json)) : Json :=
  match jGet ps "arguments" with
  | none => .obj []
  | some v => if jsTruthy v then v else .obj []

/-- `handleToolsCall`, parameterised over the tool router so that
non-invocation of the router is expressible; the registry existence check
uses the definition list. -/
def handleToolsCallWith (exec : String → Json → ExecOutcome) (id : Option RpcId)
    (params : Option (List (String × Json))) : JsonRpcResponse :=
  match params with
  | none => createErrorResponse id invalidParamsCode "Missing required parameter: name" none
  | some ps =>
    match jGet ps "name" with
    | some (.str name) =>
      if allToolDefinitions.any (fun t => t.name == name) then
        match exec name (argsOfParams ps) with
        | .ok r => createResponse id (.toolCall r)
        | .thrownInvalid msg =>
          createErrorResponse id invalidParamsCode "Invalid params" (some (.str msg))
        | .thrownOther msg =>
          createErrorResponse id internalErrorCode "Internal error" (some (.str msg))
      else
        createErrorResponse id invalidParamsCode ("Unknown tool: " ++ name) none
    | _ => createErrorResponse id invalidParamsCode "Missing required parameter: name" none

/-- `handleToolsCall` with the real router. -/
def handleToolsCall (env : Env) (id : Option RpcId)
    (params : Option (List (String × Json))) : JsonRpcResponse :=
  handleToolsCallWith (executeTool env) id params

/-- `handlePing`. -/
def handlePing (id : Option RpcId) : JsonRpcResponse :=
  createResponse id .emptyObj

/-- The method-routing `switch` of the main handler. -/
def route (env : Env) (req : JsonRpcRequest) : JsonRpcResponse :=
  match req.method with
  | "initialize" => handleInitReq (idOut req.id)
  | "tools/list" => handleToolsList (idOut req.id)
  | "tools/call" => handleToolsCall env (idOut req.id) req.params
  | "ping" => handlePing (idOut req.id)
  | m => createErrorResponse (idOut req.id) methodNotFoundCode ("Method not found: " ++ m) none

/-! ## Envelope validation and HTTP handler (`src/functions/mcp.ts`) -/

/-- `JsonRpcRequestSchema.safeParse`: the JSON-RPC 2.0 request shape
(`jsonrpc` literal `"2.0"`, optional string/number/null `id`, string
`method`, optional object `params`), with zod-style issue accumulation. -/
def safeParseRpc (j : Json) : Except (List String) JsonRpcRequest :=
  match j with
  | .obj fs =>
    let jr : Except (List String) Unit :=
      match jGet fs "jsonrpc" with
      | some (.str "2.0") => .ok ()
      | some _ => .error ["Invalid literal value, expected \"2.0\" at jsonrpc"]
      | none => .error ["Required at jsonrpc"]
    let idf : Except (List String) IdField :=
      match jGet fs "id" with
      | none => .ok .absent
      | some .null => .ok .null
      | some (.str s) => .ok (.idStr s)
      | some (.num n) => .ok (.idNum n)
      | some _ => .error ["Invalid input at id"]
    let mth : Except (List String) String :=
      match jGet fs "method" with
      | some (.str m) => .ok m
      | some _ => .error ["Expected string, received other at method"]
      | none => .error ["Required at method"]
    let prm : Except (List String) (Option (List (String × Json))) :=
      match jGet fs "params" with
      | none => .ok none
      | some (.obj ps) => .ok (some ps)
      | some _ => .error ["Expected object, received other at params"]
    match accum jr (accum idf (accum mth prm)) with
    | .error es => .error es
    | .ok (_, (i, (m, p))) => .ok { id := i, method := m, params := p }
  | _ => .error ["Expected object, received other"]

/-- An HTTP response body: the empty string, or `JSON.stringify` of a
JSON-RPC response. -/
inductive HttpBody where
  | empty
  | rpc (r : JsonRpcResponse)

/-- The handler's HTTP result (CORS headers are an external concern and are
not carried). -/
structure HttpResult where
  statusCode : Nat
  body : HttpBody

/-- `event.body || '{}'`: an absent or empty body becomes the literal
object text. -/
def effectiveBody (rawBody : Option String) : String :=
  match rawBody with
  | none => "\x7b\x7d"
  | some s => if s == "" then "\x7b\x7d" else s

/-- The main handler of `src/functions/mcp.ts` (primary variant),
parameterised over the platform JSON parser (`JSON.parse`, with `none`
modelling a thrown `SyntaxError`). -/
def handler (parseJson : String → Option Json) (env : Env) (httpMethod : String)
    (rawBody : Option String) : HttpResult :=
  if httpMethod == "OPTIONS" then
    { statusCode := 204, body := .empty }
  else if !(httpMethod == "POST") then
    { statusCode := 405,
      body := .rpc (createErrorResponse none invalidRequestCode "Method not allowed" none) }
  else
    match parseJson (effectiveBody rawBody) with
    | none =>
      { statusCode := 400,
        body := .rpc (createErrorResponse none parseErrorCode "Invalid JSON" none) }
    | some decoded =>
      match safeParseRpc decoded with
      | .error issues =>
        { statusCode := 400,
          body := .rpc (createErrorResponse none invalidRequestCode "Invalid JSON-RPC request"
            (some (.arr (issues.map .str)))) }
      | .ok request =>
        match request.id with
        | .absent => { statusCode := 204, body := .empty }
        | .null => { statusCode := 204, body := .empty }
        | _ => { statusCode := 200, body := .rpc (route env request) }

/-! ## Specification-side definitions (for refinement statements) -/

/-- Lowercase hexadecimal digit (the output alphabet of `toString(16)`). -/
def isHexDigit (c : Char) : Bool :=
  c.isDigit || (c == 'a' || c == 'b' || c == 'c' || c == 'd' || c == 'e' || c == 'f')

/-- Matching a character list against the claimed UUID v4 pattern
`xxxxxxxx-xxxx-4xxx-yxxx-xxxxxxxxxxxx`: an `x` position must hold a hex
digit, the `y` position one of `8 9 a b`, and every other position the
literal pattern character (in particular the fixed version nibble `4` and
the four dashes); the lengths must agree. -/
def matchUuidV4 : List Char → List Char → Bool
  | [], [] => true
  | t :: ts, c :: cs =>
    (if t = 'x' then isHexDigit c
     else if t = 'y' then (c == '8' || c == '9' || c == 'a' || c == 'b')
     else c == t) && matchUuidV4 ts cs
  | _, _ => false

/-- Maximal runs of characters not satisfying `p`, via a structural
accumulator (`cur` is the reversed current run). -/
def runsOfAux (p : Char → Bool) (cur : List Char) : List Char → List (List Char)
  | [] => if cur.isEmpty then [] else [cur.reverse]
  | c :: cs =>
    if p c then
      if cur.isEmpty then runsOfAux p [] cs
      else cur.reverse :: runsOfAux p [] cs
    else runsOfAux p (c :: cur) cs

/-- The maximal runs of characters not satisfying `p`, in order; this is the
spec-side notion of "maximal tokens delimited by `p`-characters". -/
def runsOf (p : Char → Bool) (l : List Char) : List (List Char) := runsOfAux p [] l

/-- Spec-side word list: the maximal whitespace-delimited non-empty tokens
of the trimmed text. -/
def specWords (t : String) : List (List Char) := runsOf isWs (trimChars t.data)

/-- Spec-side word count. -/
def specWordCount (t : String) : Nat := (specWords t).length

/-- Spec-side sentence count: maximal runs separated by one or more of
`. ! ?`, excluding empty or whitespace-only runs. -/
def specSentenceCount (t : String) : Nat :=
  ((runsOf isSentSep t.data).filter (fun r => r.any (fun c => !isWs c))).length

/-- Spec-side average word length: mean word length rounded to two decimal
places, `0` when there are no words. -/
def specAvgWordLength (t : String) : ℚ :=
  if specWordCount t = 0 then 0
  else toFixed2 ((((specWords t).map List.length).sum : ℚ) / (specWordCount t : ℚ))

/-- The per-tool zod parse of the five storage-backed memory tools
(shape check only), used to state when a memory tool's arguments fail its
input schema. -/
def memoryToolParseCheck (name : String) (args : Json) : Except (List String) Unit :=
  match name with
  | "memory_save" => (memorySaveParse args).map (fun _ => ())
  | "memory_search" => (memorySearchParse args).map (fun _ => ())
  | "memory_forget" => (memoryForgetParse args).map (fun _ => ())
  | "memory_list" => (memoryListParse args).map (fun _ => ())
  | "memory_update" => (memoryUpdateParse args).map (fun _ => ())
  | _ => .ok ()

/-- The per-tool zod parse of the schema-constrained utility tools (shape
check only). -/
def utilityToolParseCheck (name : String) (args : Json) : Except String Unit :=
  match name with
  | "echo" => (echoParse args).map (fun _ => ())
  | "calculate" => (calcParse args).map (fun _ => ())
  | "text_stats" => (textStatsParse args).map (fun _ => ())
  | _ => .ok ()

/-- A concrete environment used to instantiate theorems with hypotheses. -/
def env0 : Env :=
  { now := "2024-01-01T00:00:00.000Z",
    nowMs := 1704067200000,
    rand := fun _ => 0,
    cfg := .ok (),
    insertRes := fun _ => .ok "id-1",
    selectRes := .ok [],
    deleteRes := .ok [],
    listRes := .ok ([], 0),
    updateRes := fun _ => .ok none }

/-! ## Theorems -/

/-- A response envelope carries the given id and exactly one of
`result`/`error`. -/
def okShape (i : Option RpcId) (r : JsonRpcResponse) : Prop :=
  r.id = i ∧ r.result.isSome = !r.error.isSome

theorem okShape_createResponse (i : Option RpcId) (v : ResultVal) :
    okShape i (createResponse i v) := by
  simp [okShape, createResponse]

theorem okShape_createErrorResponse (i : Option RpcId) (c : Int) (m : String)
    (d : Option Json) : okShape i (createErrorResponse i c m d) := by
  simp [okShape, createErrorResponse]

theorem okShape_handleToolsCallWith (ex : String → Json → ExecOutcome)
    (i : Option RpcId) (ps : Option (List (String × Json))) :
    okShape i (handleToolsCallWith ex i ps) := by
  unfold handleToolsCallWith
  repeat' split
  all_goals first
    | exact okShape_createResponse i _
    | exact okShape_createErrorResponse i _ _ _

theorem okShape_route (env : Env) (req : JsonRpcRequest) :
    okShape (idOut req.id) (route env req) := by
  unfold route handleInitReq handleToolsList handleToolsCall handlePing
  split
  · exact okShape_createResponse _ _
  · exact okShape_createResponse _ _
  · exact okShape_handleToolsCallWith _ _ _
  · exact okShape_createResponse _ _
  · exact okShape_createErrorResponse _ _ _ _

/-- C3: for every structurally valid JSON-RPC request with `id` present
(string or number), the response produced by the method routing — whichever
of the four methods or the method-not-found branch handles it — carries an
`id` equal to `idOut req.id` (the injective image of the request's id, so
type and value are preserved), and exactly one of `result`/`error` is
present: `result` is set iff `error` is not. -/
theorem C3_response_id_echo_and_xor (env : Env) (req : JsonRpcRequest)
    (_h : idOut req.id ≠ none) :
    (route env req).id = idOut req.id
    ∧ (route env req).result.isSome = !((route env req).error.isSome) :=
  okShape_route env req

/-- Witness for C3 at a concrete request (`ping`, numeric id 7). -/
theorem C3_witness :
    (route env0 { id := .idNum 7, method := "ping", params := none }).id
        = idOut (.idNum 7)
    ∧ (route env0 { id := .idNum 7, method := "ping", params := none }).result.isSome
        = !((route env0 { id := .idNum 7, method := "ping", params := none }).error.isSome) :=
  C3_response_id_echo_and_xor env0 { id := .idNum 7, method := "ping", params := none }
    (by simp [idOut])

/-- C4: a `tools/call` whose `params.name` is a string matching no tool in
the registry's definition list yields the `INVALID_PARAMS` (-32602) error
`Unknown tool: <name>`, and the tool router is never invoked: the response
is the same for every router `exec`. -/
theorem C4_unknown_tool (exec exec' : String → Json → ExecOutcome)
    (id : Option RpcId) (ps : List (String × Json)) (name : String)
    (hname : jGet ps "name" = some (.str name))
    (hmem : name ∉ allToolNames) :
    handleToolsCallWith exec id (some ps) =
      createErrorResponse id invalidParamsCode ("Unknown tool: " ++ name) none
    ∧ handleToolsCallWith exec id (some ps) = handleToolsCallWith exec' id (some ps) := by
  have hany : (allToolDefinitions.any fun t => t.name == name) = false := by
    rw [List.any_eq_false]
    intro t ht
    intro hEq
    apply hmem
    rw [← beq_iff_eq.mp hEq]
    exact List.mem_map_of_mem (·.name) ht
  constructor
  · simp [handleToolsCallWith, hname, hany]
  · simp [handleToolsCallWith, hname, hany]

/-- Witness for C4 at the name `nonexistent_tool`. -/
theorem C4_witness :
    handleToolsCallWith (fun _ _ => .ok { content := [], isError := none })
        (some (.num 1)) (some [("name", .str "nonexistent_tool")]) =
      createErrorResponse (some (.num 1)) invalidParamsCode
        ("Unknown tool: " ++ "nonexistent_tool") none
    ∧ handleToolsCallWith (fun _ _ => .ok { content := [], isError := none })
        (some (.num 1)) (some [("name", .str "nonexistent_tool")]) =
      handleToolsCallWith (fun _ _ => .thrownOther "boom")
        (some (.num 1)) (some [("name", .str "nonexistent_tool")]) :=
  C4_unknown_tool _ _ (some (.num 1)) [("name", .str "nonexistent_tool")]
    "nonexistent_tool" rfl (by decide)

/-- C5: `calculate` with operation `divide`: when `b` is exactly zero the
tool returns an `isError: true` result whose text is
`Error: Division by zero`, wrapped by the dispatcher in a successful JSON-RPC
result envelope (the envelope's `error` field is `none`); when `b ≠ 0` the
result content is the JSON encoding of `{operation, a, b, result}` with
`result = a / b`. -/
theorem C5_divide (env : Env) (id : Option RpcId) (a b : ℚ) :
    (b = 0 →
      handleToolsCall env id (some [("name", .str "calculate"),
          ("arguments", .obj [("operation", .str "divide"), ("a", .num a), ("b", .num b)])]) =
        createResponse id (.toolCall
          { content := [mkText (.raw "Error: Division by zero")], isError := some true }))
    ∧ (b ≠ 0 →
      handleToolsCall env id (some [("name", .str "calculate"),
          ("arguments", .obj [("operation", .str "divide"), ("a", .num a), ("b", .num b)])]) =
        createResponse id (.toolCall
          { content := [mkText (.enc (.obj [("operation", .str "divide"), ("a", .num a),
              ("b", .num b), ("result", .num (a / b))]))], isError := none })) := by
  have hstep : handleToolsCall env id (some [("name", .str "calculate"),
      ("arguments", .obj [("operation", .str "divide"), ("a", .num a), ("b", .num b)])]) =
      createResponse id (.toolCall (calculate
        (.obj [("operation", .str "divide"), ("a", .num a), ("b", .num b)]))) := rfl
  have hcalc : calculate (.obj [("operation", .str "divide"), ("a", .num a), ("b", .num b)]) =
      if b == 0 then
        { content := [mkText (.raw "Error: Division by zero")], isError := some true }
      else
        { content := [mkText (.enc (.obj [("operation", .str "divide"), ("a", .num a),
            ("b", .num b), ("result", .num (a / b))]))], isError := none } := rfl
  constructor
  · intro hb
    subst hb
    rw [hstep, hcalc]
    norm_num
  · intro hb
    rw [hstep, hcalc, if_neg]
    simp only [beq_iff_eq]
    exact hb

/-- Witness for C5 at `a = 1`, `b = 0` and `a = 1`, `b = 2`. -/
theorem C5_witness :
    handleToolsCall env0 (some (.num 4)) (some [("name", .str "calculate"),
        ("arguments", .obj [("operation", .str "divide"), ("a", .num 1), ("b", .num 0)])]) =
      createResponse (some (.num 4)) (.toolCall
        { content := [mkText (.raw "Error: Division by zero")], isError := some true })
    ∧ handleToolsCall env0 (some (.num 4)) (some [("name", .str "calculate"),
        ("arguments", .obj [("operation", .str "divide"), ("a", .num 1), ("b", .num 2)])]) =
      createResponse (some (.num 4)) (.toolCall
        { content := [mkText (.enc (.obj [("operation", .str "divide"), ("a", .num 1),
            ("b", .num 2), ("result", .num (1 / 2))]))], isError := none }) :=
  ⟨(C5_divide env0 (some (.num 4)) 1 0).1 rfl,
   (C5_divide env0 (some (.num 4)) 1 2).2 (by norm_num)⟩

/-- C9: the update object `memory_update` sends to the store always carries
a fresh `updated_at`, carries each of `content`/`type`/`tags`/`importance`
exactly when that field was supplied in the parsed input (an omitted field is
absent from the payload), and carries no other key. -/
theorem C9_update_frame (now : String) (inp : MemoryUpdateInput) :
    jGet (memoryUpdatePayload now inp) "updated_at" = some (.str now)
    ∧ jGet (memoryUpdatePayload now inp) "content" = inp.content.map Json.str
    ∧ jGet (memoryUpdatePayload now inp) "type" =
        inp.type.map (fun t => Json.str (memTypeName t))
    ∧ jGet (memoryUpdatePayload now inp) "tags" =
        inp.tags.map (fun ts => Json.arr (ts.map Json.str))
    ∧ jGet (memoryUpdatePayload now inp) "importance" = inp.importance.map Json.num
    ∧ ∀ kv ∈ memoryUpdatePayload now inp,
        kv.1 ∈ ["updated_at", "content", "type", "tags", "importance"] := by
  obtain ⟨u, i, c, t, tg, im⟩ := inp
  cases c <;> cases t <;> cases tg <;> cases im <;>
    simp [memoryUpdatePayload, jGet, List.find?]

/-- C8 (evidence): the uuid produced by `generate_uuid` is a deterministic
function of the `Math.random()` draws — with the all-zero draw sequence it
is exactly `00000000-0000-4000-8000-000000000000`, so any party that can
reproduce the PRNG's outputs can predict the uuid. -/
theorem C8_uuid_determined_by_prng :
    generateUuid (fun _ => 0) =
      { content := [mkText (.enc (.obj
          [("uuid", .str "00000000-0000-4000-8000-000000000000")]))],
        isError := none } := rfl

/-- C2: a structurally valid JSON-RPC request whose `id` is absent or null
(a notification) yields the fixed `204`/empty-body HTTP result — for every
environment and whatever the method is, so the request never reaches the
method routing and no response body is produced. -/
theorem C2_notification_no_body (parseJson : String → Option Json) (env : Env)
    (rawBody : Option String) (j : Json) (req : JsonRpcRequest)
    (hparse : parseJson (effectiveBody rawBody) = some j)
    (hrpc : safeParseRpc j = .ok req)
    (hid : req.id = .absent ∨ req.id = .null) :
    handler parseJson env "POST" rawBody = { statusCode := 204, body := .empty } := by
  rcases hid with h | h <;> simp [handler, hparse, hrpc, h]

/-- Witness for C2 at a concrete notification (no `id`, method `foo`). -/
theorem C2_witness :
    handler (fun s => if s == "n1" then
        some (.obj [("jsonrpc", .str "2.0"), ("method", .str "foo")]) else none)
      env0 "POST" (some "n1") = { statusCode := 204, body := .empty } :=
  C2_notification_no_body _ env0 (some "n1")
    (.obj [("jsonrpc", .str "2.0"), ("method", .str "foo")])
    { id := .absent, method := "foo", params := none } rfl rfl (Or.inl rfl)

/-- C10: an HTTP POST whose body is absent or empty is parsed as the literal
object text, so it yields the `INVALID_REQUEST` (-32600) structural
validation error (the request object is missing `jsonrpc` and `method`),
with HTTP status 400 — never the `PARSE_ERROR` (-32700). -/
theorem C10_empty_body (parseJson : String → Option Json) (env : Env)
    (rawBody : Option String)
    (hparse : parseJson "\x7b\x7d" = some (.obj []))
    (hbody : rawBody = none ∨ rawBody = some "") :
    handler parseJson env "POST" rawBody =
      { statusCode := 400,
        body := .rpc (createErrorResponse none invalidRequestCode "Invalid JSON-RPC request"
          (some (.arr [.str "Required at jsonrpc", .str "Required at method"]))) }
    ∧ invalidRequestCode = -32600 ∧ invalidRequestCode ≠ parseErrorCode := by
  refine ⟨?_, by decide, by decide⟩
  have heff : effectiveBody rawBody = "\x7b\x7d" := by
    rcases hbody with h | h <;> simp [h, effectiveBody]
  simp only [handler]
  rw [heff, hparse]
  rfl

/-- Witness for C10 at both an absent and an empty body. -/
theorem C10_witness :
    (handler (fun s => if s == "\x7b\x7d" then some (.obj []) else none) env0 "POST" none =
      { statusCode := 400,
        body := .rpc (createErrorResponse none invalidRequestCode "Invalid JSON-RPC request"
          (some (.arr [.str "Required at jsonrpc", .str "Required at method"]))) }
      ∧ invalidRequestCode = -32600 ∧ invalidRequestCode ≠ parseErrorCode)
    ∧ (handler (fun s => if s == "\x7b\x7d" then some (.obj []) else none) env0 "POST" (some "") =
      { statusCode := 400,
        body := .rpc (createErrorResponse none invalidRequestCode "Invalid JSON-RPC request"
          (some (.arr [.str "Required at jsonrpc", .str "Required at method"]))) }
      ∧ invalidRequestCode = -32600 ∧ invalidRequestCode ≠ parseErrorCode) :=
  ⟨C10_empty_body _ env0 none rfl (Or.inl rfl),
   C10_empty_body _ env0 (some "") rfl (Or.inr rfl)⟩

theorem isHexDigit_digitChar (n : Nat) (h : n < 16) :
    isHexDigit (Nat.digitChar n) = true := by
  interval_cases n <;> decide

theorem variantChar_ok (n : Nat) (h : n < 16) :
    (Nat.digitChar ((n.land 3).lor 8) == '8' || Nat.digitChar ((n.land 3).lor 8) == '9' ||
     Nat.digitChar ((n.land 3).lor 8) == 'a' || Nat.digitChar ((n.land 3).lor 8) == 'b') = true := by
  interval_cases n <;> decide

theorem matchUuidV4_replaceUuid (rs : Nat → Nat) (h : ∀ i, rs i < 16) :
    ∀ (ts : List Char) (i : Nat), matchUuidV4 ts (replaceUuid rs i ts) = true := by
  intro ts
  induction ts with
  | nil => intro i; rfl
  | cons c cs ih =>
    intro i
    by_cases hx : c = 'x'
    · subst hx
      simp only [replaceUuid, matchUuidV4]
      simp [isHexDigit_digitChar _ (h i), ih (i + 1)]
    · by_cases hy : c = 'y'
      · subst hy
        simp only [replaceUuid, matchUuidV4]
        have hv := variantChar_ok (rs i) (h i)
        simp only [Bool.or_eq_true, beq_iff_eq] at hv
        simp [ih (i + 1)]
        tauto
      · simp only [replaceUuid, matchUuidV4, if_neg hx, if_neg hy]
        simp [ih i]

/-- C7: for every possible sequence of `(Math.random() * 16) | 0` draws
(each value below 16), the uuid string returned by `generate_uuid` matches
the pattern `xxxxxxxx-xxxx-4xxx-yxxx-xxxxxxxxxxxx`: hex digits throughout,
the version nibble fixed to `4`, and the variant nibble one of
`8`, `9`, `a`, `b`. -/
theorem C7_uuid_pattern (rs : Nat → Nat) (h : ∀ i, rs i < 16) :
    ∃ u : String,
      generateUuid rs =
        { content := [mkText (.enc (.obj [("uuid", .str u)]))], isError := none }
      ∧ matchUuidV4 uuidTemplate.data u.data = true :=
  ⟨String.mk (replaceUuid rs 0 uuidTemplate.data), rfl,
    matchUuidV4_replaceUuid rs h uuidTemplate.data 0⟩

/-- Witness for C7 at the all-zero draw sequence. -/
theorem C7_witness :
    ∃ u : String,
      generateUuid (fun _ => 0) =
        { content := [mkText (.enc (.obj [("uuid", .str u)]))], isError := none }
      ∧ matchUuidV4 uuidTemplate.data u.data = true :=
  C7_uuid_pattern (fun _ => 0) (by intro i; show (0 : Nat) < 16; decide)

/-- C1: tool-argument shape violations are reported asymmetrically. For a
storage-backed memory tool whose arguments fail its zod schema, the handler
raises the distinguished invalid-parameters condition and the dispatcher
converts it into the JSON-RPC error `INVALID_PARAMS` (-32602) whose `data`
is the validation message; for a schema-constrained utility tool the
dispatcher instead returns a successful JSON-RPC result whose Tool Result
has `isError: true` and a message describing the violation, with the
envelope's `error` field unset. -/
theorem C1_validation_asymmetry (env : Env) (id : Option RpcId)
    (ps : List (String × Json)) (name : String)
    (hname : jGet ps "name" = some (.str name)) :
    ((name ∈ ["memory_save", "memory_search", "memory_forget", "memory_list", "memory_update"] →
      ∀ issues, memoryToolParseCheck name (argsOfParams ps) = .error issues →
        handleToolsCall env id (some ps) =
          createErrorResponse id invalidParamsCode "Invalid params"
            (some (.str (joinMsgs issues)))))
    ∧ (name ∈ ["echo", "calculate", "text_stats"] →
      ∀ msg, utilityToolParseCheck name (argsOfParams ps) = .error msg →
        handleToolsCall env id (some ps) =
          createResponse id (.toolCall
            { content := [mkText (.raw ("Invalid input: " ++ msg))],
              isError := some true })) := by
  constructor
  · intro hmem issues hchk
    simp only [List.mem_cons, List.mem_singleton, List.not_mem_nil, or_false] at hmem
    rcases hmem with rfl | rfl | rfl | rfl | rfl
    · have hp : memorySaveParse (argsOfParams ps) = .error issues := by
        cases hq : memorySaveParse (argsOfParams ps) <;>
          simp [memoryToolParseCheck, hq, Except.map] at hchk <;> simp [hchk]
      have hAny : (allToolDefinitions.any fun t => t.name == "memory_save") = true := rfl
      have hexec : ∀ a, executeTool env "memory_save" a = memorySave env a := fun _ => rfl
      simp [handleToolsCall, handleToolsCallWith, hname, hAny, hexec, memorySave, hp]
    · have hp : memorySearchParse (argsOfParams ps) = .error issues := by
        cases hq : memorySearchParse (argsOfParams ps) <;>
          simp [memoryToolParseCheck, hq, Except.map] at hchk <;> simp [hchk]
      have hAny : (allToolDefinitions.any fun t => t.name == "memory_search") = true := rfl
      have hexec : ∀ a, executeTool env "memory_search" a = memorySearch env a := fun _ => rfl
      simp [handleToolsCall, handleToolsCallWith, hname, hAny, hexec, memorySearch, hp]
    · have hp : memoryForgetParse (argsOfParams ps) = .error issues := by
        cases hq : memoryForgetParse (argsOfParams ps) <;>
          simp [memoryToolParseCheck, hq, Except.map] at hchk <;> simp [hchk]
      have hAny : (allToolDefinitions.any fun t => t.name == "memory_forget") = true := rfl
      have hexec : ∀ a, executeTool env "memory_forget" a = memoryForget env a := fun _ => rfl
      simp [handleToolsCall, handleToolsCallWith, hname, hAny, hexec, memoryForget, hp]
    · have hp : memoryListParse (argsOfParams ps) = .error issues := by
        cases hq : memoryListParse (argsOfParams ps) <;>
          simp [memoryToolParseCheck, hq, Except.map] at hchk <;> simp [hchk]
      have hAny : (allToolDefinitions.any fun t => t.name == "memory_list") = true := rfl
      have hexec : ∀ a, executeTool env "memory_list" a = memoryList env a := fun _ => rfl
      simp [handleToolsCall, handleToolsCallWith, hname, hAny, hexec, memoryList, hp]
    · have hp : memoryUpdateParse (argsOfParams ps) = .error issues := by
        cases hq : memoryUpdateParse (argsOfParams ps) <;>
          simp [memoryToolParseCheck, hq, Except.map] at hchk <;> simp [hchk]
      have hAny : (allToolDefinitions.any fun t => t.name == "memory_update") = true := rfl
      have hexec : ∀ a, executeTool env "memory_update" a = memoryUpdate env a := fun _ => rfl
      simp [handleToolsCall, handleToolsCallWith, hname, hAny, hexec, memoryUpdate, hp]
  · intro hmem msg hchk
    simp only [List.mem_cons, List.mem_singleton, List.not_mem_nil, or_false] at hmem
    rcases hmem with rfl | rfl | rfl
    · have hp : echoParse (argsOfParams ps) = .error msg := by
        cases hq : echoParse (argsOfParams ps) <;>
          simp [utilityToolParseCheck, hq, Except.map] at hchk <;> simp [hchk]
      have hAny : (allToolDefinitions.any fun t => t.name == "echo") = true := rfl
      have hexec : ∀ a, executeTool env "echo" a = .ok (echo a) := fun _ => rfl
      simp [handleToolsCall, handleToolsCallWith, hname, hAny, hexec, echo, hp]
    · have hp : calcParse (argsOfParams ps) = .error msg := by
        cases hq : calcParse (argsOfParams ps) <;>
          simp [utilityToolParseCheck, hq, Except.map] at hchk <;> simp [hchk]
      have hAny : (allToolDefinitions.any fun t => t.name == "calculate") = true := rfl
      have hexec : ∀ a, executeTool env "calculate" a = .ok (calculate a) := fun _ => rfl
      simp [handleToolsCall, handleToolsCallWith, hname, hAny, hexec, calculate, hp]
    · have hp : textStatsParse (argsOfParams ps) = .error msg := by
        cases hq : textStatsParse (argsOfParams ps) <;>
          simp [utilityToolParseCheck, hq, Except.map] at hchk <;> simp [hchk]
      have hAny : (allToolDefinitions.any fun t => t.name == "text_stats") = true := rfl
      have hexec : ∀ a, executeTool env "text_stats" a = .ok (textStats a) := fun _ => rfl
      simp [handleToolsCall, handleToolsCallWith, hname, hAny, hexec, textStats, hp]

/-- Witness for C1: `memory_save` with empty arguments escalates to the
-32602 protocol error; `echo` with empty arguments stays in-band. -/
theorem C1_witness :
    handleToolsCall env0 (some (.num 9)) (some [("name", .str "memory_save")]) =
      createErrorResponse (some (.num 9)) invalidParamsCode "Invalid params"
        (some (.str (joinMsgs ["Required at userId", "Required at content"])))
    ∧ handleToolsCall env0 (some (.num 9)) (some [("name", .str "echo")]) =
      createResponse (some (.num 9)) (.toolCall
        { content := [mkText (.raw ("Invalid input: " ++ "Required at text"))],
          isError := some true }) :=
  ⟨(C1_validation_asymmetry env0 (some (.num 9)) [("name", .str "memory_save")]
      "memory_save" rfl).1 (by decide) ["Required at userId", "Required at content"] rfl,
   (C1_validation_asymmetry env0 (some (.num 9)) [("name", .str "echo")]
      "echo" rfl).2 (by decide) "Required at text" rfl⟩

theorem splitP_ne_nil (p : Char → Bool) (l : List Char) : splitP p l ≠ [] := by
  cases l with
  | nil => simp [splitP]
  | cons c cs =>
    simp only [splitP]
    split
    · simp
    · cases h : splitP p cs <;> simp

theorem splitP_cons_of_ne_nil (p : Char → Bool) (l : List Char) :
    ∃ s ss, splitP p l = s :: ss := by
  cases hq : splitP p l with
  | nil => exact absurd hq (splitP_ne_nil p l)
  | cons a b => exact ⟨a, b, rfl⟩

theorem runsOfAux_eq_filter (p : Char → Bool) :
    ∀ (l cur : List Char),
      runsOfAux p cur l =
        ((cur.reverse ++ (splitP p l).headI) :: (splitP p l).tail).filter
          (fun s => !s.isEmpty) := by
  intro l
  induction l with
  | nil =>
    intro cur
    simp only [runsOfAux, splitP, List.headI_cons, List.tail_cons, List.append_nil]
    cases cur with
    | nil => simp
    | cons x xs => simp
  | cons c cs ih =>
    intro cur
    obtain ⟨s, ss, hss⟩ := splitP_cons_of_ne_nil p cs
    by_cases h : p c
    · simp only [runsOfAux, splitP, if_pos h, List.headI_cons, List.tail_cons, List.append_nil]
      rw [ih [], hss]
      simp only [List.reverse_nil, List.nil_append, List.headI_cons, List.tail_cons]
      cases cur with
      | nil => simp
      | cons x xs => simp
    · simp only [runsOfAux, splitP, if_neg h]
      rw [ih (c :: cur), hss]
      simp only [List.headI_cons, List.tail_cons, List.reverse_cons, List.append_assoc,
        List.singleton_append]

theorem runsOf_eq_filter (p : Char → Bool) (l : List Char) :
    runsOf p l = (splitP p l).filter (fun s => !s.isEmpty) := by
  unfold runsOf
  rw [runsOfAux_eq_filter]
  obtain ⟨s, ss, hss⟩ := splitP_cons_of_ne_nil p l
  rw [hss]
  simp

theorem pos_length_eq_not_isEmpty (w : List Char) :
    (decide (0 < w.length)) = !w.isEmpty := by
  cases w <;> simp

theorem statsWords_eq_specWords (t : String) : statsWords t = specWords t := by
  unfold statsWords specWords
  rw [runsOf_eq_filter]
  have hpt : (fun w : List Char => decide (0 < w.length)) = (fun w => !w.isEmpty) :=
    funext pos_length_eq_not_isEmpty
  rw [hpt]

theorem trimChars_eq_nil_iff (s : List Char) :
    trimChars s = [] ↔ ∀ c ∈ s, isWs c := by
  unfold trimChars
  rw [List.reverse_eq_nil_iff, List.dropWhile_eq_nil_iff]
  constructor
  · intro h c hc
    rcases List.mem_append.mp
      ((List.takeWhile_append_dropWhile isWs s) ▸ hc) with hTake | hDrop
    · exact List.mem_takeWhile_imp hTake
    · exact h c (List.mem_reverse.mpr hDrop)
  · intro h c hc
    exact h c ((List.dropWhile_sublist isWs).subset (List.mem_reverse.mp hc))

theorem trim_pos_eq_any (s : List Char) :
    (decide (0 < (trimChars s).length)) = s.any (fun c => !isWs c) := by
  cases hq : s.any (fun c => !isWs c) with
  | false =>
    have hall : ∀ c ∈ s, isWs c := by
      intro c hc
      have := List.any_eq_false.mp hq c hc
      simpa using this
    have hnil : trimChars s = [] := (trimChars_eq_nil_iff s).mpr hall
    simp [hnil]
  | true =>
    have hne : trimChars s ≠ [] := by
      intro hnil
      obtain ⟨c, hc, hcw⟩ := List.any_eq_true.mp hq
      have := (trimChars_eq_nil_iff s).mp hnil c hc
      simp [this] at hcw
    have : 0 < (trimChars s).length := List.length_pos.mpr hne
    simp [this]

theorem statsSentences_eq_spec (t : String) : statsSentences t = specSentenceCount t := by
  unfold statsSentences specSentenceCount
  rw [runsOf_eq_filter, List.filter_filter]
  have hpt : ∀ s : List Char,
      (decide (0 < (trimChars s).length)) = ((s.any fun c => !isWs c) && !s.isEmpty) := by
    intro s
    rw [trim_pos_eq_any]
    cases s <;> simp
  have hfun : (fun s : List Char => decide (0 < (trimChars s).length)) =
      (fun s => (s.any fun c => !isWs c) && !s.isEmpty) := funext hpt
  rw [hfun]

theorem statsAvg_eq_spec (t : String) : statsAvgWordLength t = specAvgWordLength t := by
  unfold statsAvgWordLength specAvgWordLength specWordCount
  rw [statsWords_eq_specWords]
  by_cases h : (specWords t).length = 0
  · simp [h]
  · have hpos : 0 < (specWords t).length := Nat.pos_of_ne_zero h
    simp [h, hpos]

/-- C6: for every accepted input text (1 to 50000 characters), `text_stats`
returns `characters` = the text's length, `words` = the count of maximal
whitespace-delimited non-empty tokens after trimming, `sentences` = the
count of maximal runs separated by one or more of `. ! ?` excluding empty or
whitespace-only runs, and `averageWordLength` = the mean word length rounded
to 2 decimal places (0 when there are no words). -/
theorem C6_text_stats (t : String) (h1 : 1 ≤ t.length) (h2 : t.length ≤ 50000) :
    textStats (.obj [("text", .str t)]) =
      { content := [mkText (.enc (.obj [
          ("characters", .num (t.length : ℚ)),
          ("words", .num (specWordCount t : ℚ)),
          ("sentences", .num (specSentenceCount t : ℚ)),
          ("averageWordLength", .num (specAvgWordLength t))]))],
        isError := none } := by
  have e1 : ¬ (t.length < 1) := by omega
  have e2 : ¬ (50000 < t.length) := by omega
  have hp : textStatsParse (.obj [("text", .str t)]) = .ok t := by
    simp [textStatsParse, jGet, e1, e2]
  simp [textStats, hp, specWordCount, statsWords_eq_specWords, statsSentences_eq_spec,
    statsAvg_eq_spec]

/-- Witness for C6 at the text from the spec's example. -/
theorem C6_witness :
    textStats (.obj [("text", .str "Hello world. This is a test.")]) =
      { content := [mkText (.enc (.obj [
          ("characters", .num 28),
          ("words", .num 6),
          ("sentences", .num 2),
          ("averageWordLength", .num (383 / 100))]))],
        isError := none } := by
  have h := C6_text_stats "Hello world. This is a test." (by decide) (by decide)
  rw [h]
  have hw : specWordCount "Hello world. This is a test." = 6 := by decide
  have hs : specSentenceCount "Hello world. This is a test." = 2 := by decide
  have hsum : (((specWords "Hello world. This is a test.").map List.length).sum) = 23 := by
    decide
  have ha : specAvgWordLength "Hello world. This is a test." = 383 / 100 := by
    unfold specAvgWordLength
    rw [hw, hsum]
    have hfl : ⌊((23 : ℚ) / 6 * 100 + 1 / 2)⌋ = 383 := by
      rw [Int.floor_eq_iff] <;> norm_num
    simp only [toFixed2]
    norm_num [hfl]
  have hc : ("Hello world. This is a test.").length = 28 := by decide
  rw [hw, hs, ha, hc]
  norm_num

/-- Witness for C9 at a concrete input supplying only `content`. -/
theorem C9_witness :
    jGet (memoryUpdatePayload "2024-01-01T00:00:00.000Z"
        { userId := "u1", id := "m1", content := some "new content",
          type := none, tags := none, importance := none }) "updated_at" =
      some (.str "2024-01-01T00:00:00.000Z")
    ∧ jGet (memoryUpdatePayload "2024-01-01T00:00:00.000Z"
        { userId := "u1", id := "m1", content := some "new content",
          type := none, tags := none, importance := none }) "content" =
      some (.str "new content")
    ∧ jGet (memoryUpdatePayload "2024-01-01T00:00:00.000Z"
        { userId := "u1", id := "m1", content := some "new content",
          type := none, tags := none, importance := none }) "type" = none
    ∧ jGet (memoryUpdatePayload "2024-01-01T00:00:00.000Z"
        { userId := "u1", id := "m1", content := some "new content",
          type := none, tags := none, importance := none }) "importance" = none := by
  have h := C9_update_frame "2024-01-01T00:00:00.000Z"
    { userId := "u1", id := "m1", content := some "new content",
      type := none, tags := none, importance := none }
  exact ⟨h.1, by simpa using h.2.1, by simpa using h.2.2.1, by simpa using h.2.2.2.2.1⟩
